import Mathlib

/-!
Verification of the Remote-Port protocol device adapters
(`remote-port-memory-master.c`, `remote-port-memory-slave.c`,
`remote-port-gpio.c`, `remote-port-proto.h`) against their
natural-language specification.

The C sources are shallowly embedded: machine integers are `Nat`/`Int`
with explicit reductions modulo `2^w` where overflow matters, fallible
code (C `assert` aborts, unchecked array indexing) returns `Option`,
and the sequential effect order of a function body is embedded as an
explicit list of events.  Functions of this repository whose
implementation is not part of the sources at hand (`rp_encode_*`,
`rp_sync_vmclock`, living in `remote-port.c`) are modelled from the
specification; each such definition says so in its doc comment.
-/

namespace RemotePort

/-! ## Byte-order helpers (`be32_to_cpu` / `cpu_to_be32`) -/

/-- Byte swap of a 32-bit value: reverses the order of the four bytes.
On a little-endian host both `cpu_to_be32` and `be32_to_cpu` are this
byte reversal. -/
def byteswap32 (x : Nat) : Nat :=
  (x % 256) * 2 ^ 24 + (x / 2 ^ 8 % 256) * 2 ^ 16 +
    (x / 2 ^ 16 % 256) * 2 ^ 8 + (x / 2 ^ 24 % 256)

/-- The host-to-network conversion `cpu_to_be32` (little-endian host). -/
def cpu_to_be32 (x : Nat) : Nat := byteswap32 x

/-- The network-to-host conversion `be32_to_cpu` (little-endian host). -/
def be32_to_cpu (x : Nat) : Nat := byteswap32 x

/-! ## Packet sizes and flags, from the packed structs of
`remote-port-proto.h` -/

/-- sizeof(struct rp_pkt_hdr): five packed `uint32_t` fields
(cmd, len, id, flags, dev). -/
def rp_pkt_hdr_size : Nat := 4 + 4 + 4 + 4 + 4

/-- sizeof(struct rp_pkt_busaccess): the packed header followed by
timestamp `u64`, attributes `u64`, addr `u64`, len `u32`, width `u32`,
stream_width `u32`. -/
def rp_pkt_busaccess_size : Nat := rp_pkt_hdr_size + 8 + 8 + 8 + 4 + 4 + 4

/-- RP_PKT_FLAGS_optional = 1 << 0. -/
def RP_PKT_FLAGS_optional : Nat := 1

/-- RP_PKT_FLAGS_response = 1 << 1. -/
def RP_PKT_FLAGS_response : Nat := 2

/-! ## C arithmetic on the master's read path

`rp_io_read` assembles the returned value with
`value |= data[i] << (i * 8);` where `value` is `uint64_t` and `data`
points at `uint8_t`.  In C the shift operand `data[i]` is first
promoted to (signed, 32-bit) `int`; the shift happens at `int` width,
and the result is converted to `uint64_t` (sign-extending) by the `|=`.
We model the two's-complement behaviour every mainstream compiler
produces for the overflowing shift (ISO C calls a signed shift whose
result exceeds `INT_MAX` undefined). -/

/-- Reading of a 32-bit pattern as a signed (two's-complement) `int`. -/
def toSigned32 (u : Nat) : Int :=
  if u < 2 ^ 31 then (u : Int) else (u : Int) - 2 ^ 32

/-- C expression `b << n` where `b` holds a promoted `uint8_t`
(so `0 ≤ b < 256`) and the arithmetic is done at `int` width:
the 32-bit result pattern read as signed. -/
def c_int_shl_byte (b n : Nat) : Int := toSigned32 (b <<< n % 2 ^ 32)

/-- Conversion of a C `int` value to `uint64_t`: reduction modulo
`2^64` (negative values wrap, i.e. sign-extend into the high bits). -/
def intToUInt64 (x : Int) : Nat := (x % 2 ^ 64).toNat

/-- The value-assembly loop of `rp_io_read`
(`remote-port-memory-master.c`):

    for (i = 0; i < size; i++) {
        value |= data[i] << (i *8);
    }

with `data` the response's trailing bytes. -/
def rp_read_value_loop (size : Nat) (data : Nat → Nat) : Nat :=
  (List.range size).foldl
    (fun value i => value ||| intToUInt64 (c_int_shl_byte (data i) (i * 8))) 0

/-- The little-endian assembly the specification describes:
`sum over i of d[i] * 2^(8*i)`. -/
def le_assemble (size : Nat) (data : Nat → Nat) : Nat :=
  (List.range size).foldl (fun value i => value + data i * 2 ^ (8 * i)) 0

/-- The trailing data of concrete scenario A: `{0xAA,0xBB,0xCC,0xDD}`. -/
def scenarioA_data : Nat → Nat
  | 0 => 0xAA
  | 1 => 0xBB
  | 2 => 0xCC
  | 3 => 0xDD
  | _ => 0

/-! ## The master's transaction engine (`remote-port-memory-master.c`)

`rp_io_read` / `rp_io_write` sample the clock, allocate an id, encode
a request, send it under the response mutex, block for the response,
assert the response id matches, consume the response, and reconcile
clocks.  The response-dependent part is embedded as a function of the
decoded response packet; the C `assert` on the id is an `Option`
(`none` = assertion abort). -/

/-- A decoded response packet as the master consumes it: the header id
(after `rp_decode_hdr`, i.e. already in host order), the bus-access
timestamp, and the trailing data bytes. -/
structure RspPkt where
  id : Nat
  timestamp : Int
  data : Nat → Nat

/-- Modelled from the spec: `rp_encode_read` / `rp_encode_write`
(implementation in `remote-port.c`, which is not among the sources)
serialize all multi-byte header fields in network byte order, so the
encoded request header holds `cpu_to_be32 id`; the master reads it
back with `be32_to_cpu(pkt.hdr.id)` when checking correlation. -/
def encoded_hdr_id (id : Nat) : Nat := cpu_to_be32 id

/-- Response handling of `rp_io_read`: the id assertion
(`assert(rsp.pkt->hdr.id == be32_to_cpu(pkt.hdr.id))`), the
value-assembly loop, and the reading of `rclk`.  Returns the assembled
value together with the pair `(clk, rclk)` later passed to
`rp_sync_vmclock`; `none` models the assertion abort. -/
def rp_io_read (id size : Nat) (clk : Int) (rsp : RspPkt) :
    Option (Nat × Int × Int) :=
  if rsp.id = be32_to_cpu (encoded_hdr_id id) then
    some (rp_read_value_loop size rsp.data, clk, rsp.timestamp)
  else
    none

/-- Response handling of `rp_io_write`: the id assertion and the
reading of `rclk`.  Returns the pair `(clk, rclk)` later passed to
`rp_sync_vmclock`; `none` models the assertion abort. -/
def rp_io_write_resp (id : Nat) (clk : Int) (rsp : RspPkt) :
    Option (Int × Int) :=
  if rsp.id = be32_to_cpu (encoded_hdr_id id) then
    some (clk, rsp.timestamp)
  else
    none

/-! ## Event traces

The sequential effect order of each function body, embedded as an
explicit list of events in source order. -/

/-- The observable operations the device adapters perform. -/
inductive Ev
  | stageData       -- the data staging loop of rp_io_write
  | sampleClock     -- rp_normalized_vmclk
  | newId           -- rp_new_id
  | encodeReq       -- rp_encode_read / rp_encode_write
  | mutexLock       -- rp_rsp_mutex_lock
  | send            -- rp_write
  | waitResp        -- rp_wait_resp (blocks until the response arrives)
  | checkId         -- the assert correlating the response id
  | extractData     -- reading value / rclk out of the response
  | invalidate      -- rp_dpkt_invalidate
  | mutexUnlock     -- rp_rsp_mutex_unlock
  | syncClock       -- rp_sync_vmclock
  | restartTimer    -- rp_restart_sync_timer
  | leaveIothread   -- rp_leave_iothread
  | encodeInterrupt -- rp_encode_interrupt
deriving DecidableEq

/-- The operations of `rp_io_read`, in source order. -/
def rp_io_read_trace : List Ev :=
  [.sampleClock, .newId, .encodeReq, .mutexLock, .send, .waitResp,
   .checkId, .extractData, .invalidate, .mutexUnlock, .syncClock,
   .restartTimer, .leaveIothread]

/-- The operations of `rp_io_write`, in source order. -/
def rp_io_write_trace : List Ev :=
  [.stageData, .sampleClock, .newId, .encodeReq, .mutexLock, .send,
   .waitResp, .checkId, .extractData, .invalidate, .mutexUnlock,
   .syncClock, .restartTimer, .leaveIothread]

/-- The operations of `rp_gpio_handler` (`remote-port-gpio.c`), in
source order: sample the clock, encode one interrupt packet, send it,
return. -/
def rp_gpio_handler_trace : List Ev :=
  [.sampleClock, .encodeInterrupt, .send]

/-! ## The master's write path (wire content) -/

/-- The data-staging loop of `rp_io_write`:

    for (i = 0; i < 8; i++) {
        pay.data[i] = value >> (i * 8);
    }

`pay.data[i]` is `uint8_t`, so the shifted `uint64_t` value is
truncated modulo 256. -/
def rp_write_payload_data (value : Nat) : List Nat :=
  (List.range 8).map fun i => value >>> (i * 8) % 256

/-- The fields of an encoded bus-access packet. -/
structure EncodedBusPkt where
  id : Nat
  dev : Nat
  clk : Int
  addr : Nat
  attr : Nat
  len : Nat
  width : Nat
  stream_width : Nat

/-- Modelled from the spec: `rp_encode_write` (implementation in
`remote-port.c`, not among the sources) fills the fixed bus-access
packet — "BusAccess payload: timestamp:i64, attributes:u64,
address:u64, length:u32, beat_width:u32, stream_width:u32" — with its
arguments, the `length` field reflecting the exact trailing-payload
byte count, and returns the encoded fixed-packet byte count
`sizeof(struct rp_pkt_busaccess)`. -/
def rp_encode_write (id dev : Nat) (clk : Int)
    (addr attr size width stream_width : Nat) : EncodedBusPkt × Nat :=
  (⟨id, dev, clk, addr, attr, size, width, stream_width⟩,
   rp_pkt_busaccess_size)

/-- What a write request puts on the wire: the encoded fixed packet,
the total transmitted byte count, and the trailing data bytes. -/
structure WriteWire where
  pkt : EncodedBusPkt
  totalBytes : Nat
  trailing : List Nat

/-- The request side of `rp_io_write`: stage the data bytes, encode
the fixed packet (`rp_encode_write(id, dev, &pay.pkt, clk,
addr + map->offset, 0, size, 0, size)`), then transmit `len + size`
bytes — the fixed packet followed by the first `size` staged bytes
(`rp_write(s->rp, (void *) &pay, len + size)`). -/
def rp_io_write_request (id dev : Nat) (clk : Int)
    (addr offset value size : Nat) : WriteWire :=
  let data := rp_write_payload_data value
  let enc := rp_encode_write id dev clk (addr + offset) 0 size 0 size
  ⟨enc.1, enc.2 + size, data.take size⟩

/-! ## Clock synchronizer -/

/-- Modelled from the spec: `rp_sync_vmclock` (implementation in
`remote-port.c`, not among the sources) — "the Synchronizer advances
the local notion of peer clock to at least that value (monotonic,
never regresses)": the tracked peer clock becomes the maximum of its
current value and the received peer timestamp. -/
def rp_sync_vmclock (tracked peerTs : Int) : Int := max tracked peerTs

/-- The tracked peer clock after a sequence of reconciliations
starting from `tracked`. -/
def reconcileAll (tracked : Int) (tss : List Int) : Int :=
  tss.foldl rp_sync_vmclock tracked

/-- The tracked peer clock of a session whose received peer
timestamps were exactly `ts :: tss`: tracking starts at the first
received timestamp. -/
def trackedAfter (ts : Int) (tss : List Int) : Int := reconcileAll ts tss

/-! ## The memory slave (`remote-port-memory-slave.c`) -/

/-- The DMA direction `rp_cmd_rw` is invoked with:
`DMA_DIRECTION_FROM_DEVICE` for an inbound write
(`rp_memory_master_write`), `DMA_DIRECTION_TO_DEVICE` for an inbound
read (`rp_memory_master_read`). -/
inductive DMADirection
  | fromDevice
  | toDevice
deriving DecidableEq

/-- An inbound bus-access request as the slave sees it: decoded header
fields, bus-access fields, and the request's trailing bytes (the data
of a write). -/
structure SlavePkt where
  id : Nat
  dev : Nat
  flags : Nat
  timestamp : Int
  attributes : Nat
  addr : Nat
  len : Nat
  width : Nat
  stream_width : Nat
  writeData : Nat → Nat

/-- The response the slave transmits: the encoded fixed packet, the
total transmitted byte count (`pktlen`), and the trailing data. -/
structure SlaveResp where
  pkt : EncodedBusPkt
  totalBytes : Nat
  trailing : List Nat

/-- Modelled from the spec: `rp_encode_read_resp` (implementation in
`remote-port.c`, not among the sources) — a read-response is the fixed
bus-access packet followed by `length` bytes of trailing data, so the
encoded length it reports is `sizeof(struct rp_pkt_busaccess) + size`
(the slave's `assert(enclen == pktlen)` pins exactly this). -/
def rp_encode_read_resp (id dev : Nat) (clk : Int)
    (addr attr size width stream_width : Nat) : EncodedBusPkt × Nat :=
  (⟨id, dev, clk, addr, attr, size, width, stream_width⟩,
   rp_pkt_busaccess_size + size)

/-- Modelled from the spec: `rp_encode_write_resp` (implementation in
`remote-port.c`, not among the sources) — a write-response carries no
trailing data, so the encoded length it reports is
`sizeof(struct rp_pkt_busaccess)`. -/
def rp_encode_write_resp (id dev : Nat) (clk : Int)
    (addr attr size width stream_width : Nat) : EncodedBusPkt × Nat :=
  (⟨id, dev, clk, addr, attr, size, width, stream_width⟩,
   rp_pkt_busaccess_size)

/-- `rp_cmd_rw` of the memory slave.  Memory is a byte map
`Nat → Nat`.  In source order: `pktlen` adds the data length for reads
(`DMA_DIRECTION_TO_DEVICE`); the three asserts
(`width == 0`, `stream_width == len`, response flag clear) are the
outer guard (`none` = assertion abort); `dma_memory_rw` either fetches
`len` bytes at `addr` into the response (reads) or stores the
request's trailing bytes at `addr` (writes); `delay` is cleared; the
response is encoded with `rp_encode_write_resp` for writes and
`rp_encode_read_resp` for reads, `assert(enclen == pktlen)` is the
inner guard, and `pktlen` bytes are transmitted. -/
def rp_cmd_rw (mem : Nat → Nat) (pkt : SlavePkt) (dir : DMADirection) :
    Option (SlaveResp × (Nat → Nat)) :=
  let pktlen := rp_pkt_busaccess_size +
    (if dir = DMADirection.toDevice then pkt.len else 0)
  if pkt.width = 0 ∧ pkt.stream_width = pkt.len ∧
      pkt.flags &&& RP_PKT_FLAGS_response = 0 then
    let newMem : Nat → Nat :=
      if dir = DMADirection.fromDevice then
        fun a => if pkt.addr ≤ a ∧ a < pkt.addr + pkt.len
                 then pkt.writeData (a - pkt.addr) else mem a
      else mem
    let data : List Nat :=
      if dir = DMADirection.toDevice then
        (List.range pkt.len).map fun i => mem (pkt.addr + i)
      else []
    let delay : Int := 0
    let enc :=
      (if dir = DMADirection.fromDevice then rp_encode_write_resp
       else rp_encode_read_resp)
        pkt.id pkt.dev (pkt.timestamp + delay) pkt.addr pkt.attributes
        pkt.len pkt.width pkt.stream_width
    if enc.2 = pktlen then some (⟨enc.1, pktlen, data⟩, newMem) else none
  else
    none

/-! ## The GPIO adapter (`remote-port-gpio.c`) -/

/-- The GPIO device state the claims touch: the configured line count
and the output-line array. -/
structure GPIOState where
  num_gpios : Nat
  gpio_out : List Nat

/-- `rp_gpio_realize`: `s->gpio_out = g_new0(qemu_irq, s->num_gpios)`
— an output array of exactly `num_gpios` zero-initialized entries. -/
def rp_gpio_realize (num_gpios : Nat) : GPIOState :=
  ⟨num_gpios, List.replicate num_gpios 0⟩

/-- `rp_gpio_interrupt`:
`qemu_set_irq(rpg->gpio_out[pkt->interrupt.line], pkt->interrupt.val)`
— the array is indexed directly with the packet's `line` field, with
no bounds check; an out-of-range index is undefined behaviour,
modelled as `none`. -/
def rp_gpio_interrupt (s : GPIOState) (line val : Nat) : Option GPIOState :=
  if line < s.gpio_out.length then
    some ⟨s.num_gpios, s.gpio_out.set line val⟩
  else
    none

/-- The id-allocation effect of `rp_gpio_handler`: the packet is
encoded with id `s->current_id++`, so the id used is the current
counter and the counter advances by one.  Returns
`(id used, new counter)`. -/
def rp_gpio_handler (current_id : Nat) : Nat × Nat :=
  (current_id, current_id + 1)

/-! ## Helper lemmas -/

theorem byteswap32_bytes (a b c d : Nat) (ha : a < 256) (hb : b < 256)
    (hc : c < 256) (hd : d < 256) :
    byteswap32 (a + b * 2 ^ 8 + c * 2 ^ 16 + d * 2 ^ 24)
      = d + c * 2 ^ 8 + b * 2 ^ 16 + a * 2 ^ 24 := by
  unfold byteswap32
  omega

theorem byteswap32_byteswap32 (x : Nat) (hx : x < 2 ^ 32) :
    byteswap32 (byteswap32 x) = x := by
  have hdecomp : x = x % 256 + (x / 2 ^ 8 % 256) * 2 ^ 8 +
      (x / 2 ^ 16 % 256) * 2 ^ 16 + (x / 2 ^ 24) * 2 ^ 24 := by
    omega
  have h1 := byteswap32_bytes (x % 256) (x / 2 ^ 8 % 256) (x / 2 ^ 16 % 256)
    (x / 2 ^ 24) (by omega) (by omega) (by omega) (by omega)
  have h2 := byteswap32_bytes (x / 2 ^ 24) (x / 2 ^ 16 % 256) (x / 2 ^ 8 % 256)
    (x % 256) (by omega) (by omega) (by omega) (by omega)
  calc byteswap32 (byteswap32 x)
      = byteswap32 (byteswap32 (x % 256 + (x / 2 ^ 8 % 256) * 2 ^ 8 +
          (x / 2 ^ 16 % 256) * 2 ^ 16 + (x / 2 ^ 24) * 2 ^ 24)) := by
        rw [← hdecomp]
    _ = byteswap32 (x / 2 ^ 24 + (x / 2 ^ 16 % 256) * 2 ^ 8 +
          (x / 2 ^ 8 % 256) * 2 ^ 16 + (x % 256) * 2 ^ 24) := by rw [h1]
    _ = x % 256 + (x / 2 ^ 8 % 256) * 2 ^ 8 +
          (x / 2 ^ 16 % 256) * 2 ^ 16 + (x / 2 ^ 24) * 2 ^ 24 := h2
    _ = x := hdecomp.symm

/-! ## Claims -/

/-- C1 (code_bug): on the spec's own scenario A — a 4-byte read whose
response data is `{0xAA,0xBB,0xCC,0xDD}` — the code's assembly loop
returns `0xFFFFFFFFDDCCBBAA`, not the `0xDDCCBBAA` the claim states:
`data[3] << 24` overflows the (signed) `int` the shift is computed in,
and the negative result sign-extends into the upper 32 bits when OR'd
into the `uint64_t` accumulator.  The intended little-endian assembly
of the same bytes is `0xDDCCBBAA`. -/
theorem C1_read_value_sign_extension_bug :
    rp_read_value_loop 4 scenarioA_data = 0xFFFFFFFFDDCCBBAA ∧
    le_assemble 4 scenarioA_data = 0xDDCCBBAA ∧
    rp_read_value_loop 4 scenarioA_data ≠ le_assemble 4 scenarioA_data := by
  refine ⟨by decide, by decide, by decide⟩

/-- C2: for both bus reads and bus writes, a response whose header id
differs from the outstanding request's id makes the operation fail
fatally (the assertion aborts, modelled as `none`) and never yields
data from the mismatched response; a response with the matching id is
consumed normally. -/
theorem C2_response_correlation (id size : Nat) (clk : Int) (rsp : RspPkt)
    (hid : id < 2 ^ 32) :
    (rsp.id ≠ id →
      rp_io_read id size clk rsp = none ∧
      rp_io_write_resp id clk rsp = none) ∧
    (rsp.id = id →
      rp_io_read id size clk rsp =
        some (rp_read_value_loop size rsp.data, clk, rsp.timestamp) ∧
      rp_io_write_resp id clk rsp = some (clk, rsp.timestamp)) := by
  have hrt : be32_to_cpu (encoded_hdr_id id) = id :=
    byteswap32_byteswap32 id hid
  constructor
  · intro hne
    constructor
    · simp [rp_io_read, hrt, hne]
    · simp [rp_io_write_resp, hrt, hne]
  · intro heq
    constructor
    · simp [rp_io_read, hrt, heq]
    · simp [rp_io_write_resp, hrt, heq]

/-- Witness for C2 at concrete inputs: request id 2 against a response
carrying id 1 aborts both paths; request id 1 against the same
response consumes it. -/
theorem C2_response_correlation_witness :
    (rp_io_read 2 4 100 ⟨1, 7, fun _ => 0⟩ = none ∧
     rp_io_write_resp 2 100 ⟨1, 7, fun _ => 0⟩ = none) ∧
    (rp_io_read 1 4 100 ⟨1, 7, fun _ => 0⟩ =
       some (rp_read_value_loop 4 (RspPkt.mk 1 7 fun _ => 0).data, 100, 7) ∧
     rp_io_write_resp 1 100 ⟨1, 7, fun _ => 0⟩ = some (100, 7)) :=
  ⟨(C2_response_correlation 2 4 100 ⟨1, 7, fun _ => 0⟩ (by decide)).1
      (by decide),
   (C2_response_correlation 1 4 100 ⟨1, 7, fun _ => 0⟩ (by decide)).2 rfl⟩

/-- C3 (counterexample): the claim states the per-channel response
mutex is acquired before the request is encoded and released only
after clock reconciliation.  In both `rp_io_read` and `rp_io_write`
the encode (`rp_encode_read`/`rp_encode_write`) strictly precedes
`rp_rsp_mutex_lock`, and `rp_rsp_mutex_unlock` strictly precedes
`rp_sync_vmclock`, so neither part of the claim holds. -/
theorem C3_mutex_extent_counterexample :
    (rp_io_read_trace.count Ev.encodeReq = 1 ∧
     rp_io_read_trace.count Ev.mutexLock = 1 ∧
     rp_io_read_trace.count Ev.mutexUnlock = 1 ∧
     rp_io_read_trace.count Ev.syncClock = 1 ∧
     rp_io_write_trace.count Ev.encodeReq = 1 ∧
     rp_io_write_trace.count Ev.mutexLock = 1 ∧
     rp_io_write_trace.count Ev.mutexUnlock = 1 ∧
     rp_io_write_trace.count Ev.syncClock = 1) ∧
    ¬ (rp_io_read_trace.indexOf Ev.mutexLock <
         rp_io_read_trace.indexOf Ev.encodeReq) ∧
    ¬ (rp_io_read_trace.indexOf Ev.syncClock <
         rp_io_read_trace.indexOf Ev.mutexUnlock) ∧
    ¬ (rp_io_write_trace.indexOf Ev.mutexLock <
         rp_io_write_trace.indexOf Ev.encodeReq) ∧
    ¬ (rp_io_write_trace.indexOf Ev.syncClock <
         rp_io_write_trace.indexOf Ev.mutexUnlock) := by
  decide

/-- C3 (amended): on both bus paths the mutex is acquired after the
request has been encoded but before it is sent, and is released after
the response has been consumed and invalidated but before the clock is
reconciled with the peer timestamp — clock reconciliation happens
outside the mutex-held region. -/
theorem C3_mutex_discipline :
    (rp_io_read_trace.indexOf Ev.encodeReq <
       rp_io_read_trace.indexOf Ev.mutexLock ∧
     rp_io_read_trace.indexOf Ev.mutexLock <
       rp_io_read_trace.indexOf Ev.send ∧
     rp_io_read_trace.indexOf Ev.waitResp <
       rp_io_read_trace.indexOf Ev.extractData ∧
     rp_io_read_trace.indexOf Ev.extractData <
       rp_io_read_trace.indexOf Ev.invalidate ∧
     rp_io_read_trace.indexOf Ev.invalidate <
       rp_io_read_trace.indexOf Ev.mutexUnlock ∧
     rp_io_read_trace.indexOf Ev.mutexUnlock <
       rp_io_read_trace.indexOf Ev.syncClock) ∧
    (rp_io_write_trace.indexOf Ev.encodeReq <
       rp_io_write_trace.indexOf Ev.mutexLock ∧
     rp_io_write_trace.indexOf Ev.mutexLock <
       rp_io_write_trace.indexOf Ev.send ∧
     rp_io_write_trace.indexOf Ev.waitResp <
       rp_io_write_trace.indexOf Ev.extractData ∧
     rp_io_write_trace.indexOf Ev.extractData <
       rp_io_write_trace.indexOf Ev.invalidate ∧
     rp_io_write_trace.indexOf Ev.invalidate <
       rp_io_write_trace.indexOf Ev.mutexUnlock ∧
     rp_io_write_trace.indexOf Ev.mutexUnlock <
       rp_io_write_trace.indexOf Ev.syncClock) := by
  decide

/-- Each single reconciliation never decreases the tracked clock. -/
theorem le_rp_sync_vmclock (t p : Int) : t ≤ rp_sync_vmclock t p :=
  le_max_left t p

/-- No sequence of reconciliations decreases the tracked clock. -/
theorem le_reconcileAll (t : Int) (l : List Int) : t ≤ reconcileAll t l := by
  induction l generalizing t with
  | nil => exact le_refl t
  | cons a l ih =>
      calc t ≤ rp_sync_vmclock t a := le_rp_sync_vmclock t a
        _ ≤ reconcileAll (rp_sync_vmclock t a) l := ih (rp_sync_vmclock t a)
        _ = reconcileAll t (a :: l) := rfl

/-- With strictly increasing peer timestamps the tracked clock ends at
the last received timestamp. -/
theorem trackedAfter_chain (ts : Int) (tss : List Int)
    (h : List.Chain' (· < ·) (ts :: tss)) :
    trackedAfter ts tss = tss.getLastD ts := by
  induction tss generalizing ts with
  | nil => rfl
  | cons t2 rest ih =>
      have hlt : ts < t2 := (List.chain'_cons.mp h).1
      have htail : List.Chain' (· < ·) (t2 :: rest) := (List.chain'_cons.mp h).2
      have hsync : rp_sync_vmclock ts t2 = t2 := max_eq_right hlt.le
      calc trackedAfter ts (t2 :: rest)
          = reconcileAll (rp_sync_vmclock ts t2) rest := rfl
        _ = reconcileAll t2 rest := by rw [hsync]
        _ = rest.getLastD t2 := ih t2 htail
        _ = (t2 :: rest).getLastD ts := (List.getLastD_cons ts t2 rest).symm

/-- C4: the tracked peer clock is monotonic — a single reconciliation
and any sequence of reconciliations are non-decreasing; when the
received peer timestamps are strictly increasing the tracked clock
equals the last received timestamp; and a regressing timestamp
(480 after 500) never decreases the tracked value. -/
theorem C4_peer_clock_monotonic (ts : Int) (tss : List Int)
    (hchain : List.Chain' (· < ·) (ts :: tss)) :
    (∀ t p : Int, t ≤ rp_sync_vmclock t p) ∧
    (∀ (t : Int) (l : List Int), t ≤ reconcileAll t l) ∧
    trackedAfter ts tss = tss.getLastD ts ∧
    rp_sync_vmclock 500 480 = 500 := by
  refine ⟨le_rp_sync_vmclock, le_reconcileAll,
    trackedAfter_chain ts tss hchain, ?_⟩
  decide

/-- Witness for C4 at concrete inputs: three strictly increasing
reconciliations 100, 200, 300 end at 300, and the regressing
timestamp 480 after 500 leaves the tracked clock at 500. -/
theorem C4_peer_clock_monotonic_witness :
    trackedAfter 100 [200, 300] = [200, 300].getLastD 100 ∧
    rp_sync_vmclock 500 480 = 500 :=
  ⟨(C4_peer_clock_monotonic 100 [200, 300]
      (by norm_num [List.chain'_cons])).2.2.1,
   (C4_peer_clock_monotonic 100 [200, 300]
      (by norm_num [List.chain'_cons])).2.2.2⟩

/-- C5: a bus write of `size ≤ 8` bytes of `value` transmits, after
the fixed bus-access packet, exactly the `size` least-significant
bytes of `value` in little-endian order; the total byte count is the
encoded fixed-packet length plus `size`; and the encoded `length`
field equals `size`. -/
theorem C5_write_wire (id dev : Nat) (clk : Int)
    (addr offset value size : Nat) (hsize : size ≤ 8) :
    (rp_io_write_request id dev clk addr offset value size).trailing
      = (List.range size).map (fun i => value / 2 ^ (8 * i) % 256) ∧
    (rp_io_write_request id dev clk addr offset value size).totalBytes
      = rp_pkt_busaccess_size + size ∧
    (rp_io_write_request id dev clk addr offset value size).pkt.len
      = size := by
  refine ⟨?_, rfl, rfl⟩
  show ((List.range 8).map fun i => value >>> (i * 8) % 256).take size = _
  rw [← List.map_take, List.take_range size 8, min_eq_left hsize]
  exact List.map_congr_left fun i _ => by
    rw [Nat.shiftRight_eq_div_pow, Nat.mul_comm i 8]

/-- Witness for C5: the spec's concrete scenario B — a 2-byte write of
value 0x1234 to address 0x2000 — yields trailing bytes {0x34, 0x12},
length field 2, and total size sizeof(struct rp_pkt_busaccess) + 2. -/
theorem C5_write_wire_witness :
    (rp_io_write_request 1 2 100 0x2000 0 0x1234 2).trailing
      = [0x34, 0x12] ∧
    (rp_io_write_request 1 2 100 0x2000 0 0x1234 2).totalBytes
      = rp_pkt_busaccess_size + 2 ∧
    (rp_io_write_request 1 2 100 0x2000 0 0x1234 2).pkt.len = 2 :=
  have h := C5_write_wire 1 2 100 0x2000 0 0x1234 2 (by decide)
  ⟨h.1.trans (by decide), h.2.1, h.2.2⟩

/-- C6: every bus read and write is a synchronization point: on both
paths `rp_sync_vmclock` and `rp_restart_sync_timer` run after the
response is consumed and before the function returns (both are in the
trace after `waitResp`, the timer restart following the clock sync),
and the pair handed to `rp_sync_vmclock` is exactly the request clock
sample and the response's timestamp. -/
theorem C6_sync_point (id size : Nat) (clk : Int) (rsp : RspPkt)
    (hid : id < 2 ^ 32) (hmatch : rsp.id = id) :
    (Ev.syncClock ∈ rp_io_read_trace ∧
     Ev.restartTimer ∈ rp_io_read_trace ∧
     rp_io_read_trace.indexOf Ev.waitResp <
       rp_io_read_trace.indexOf Ev.syncClock ∧
     rp_io_read_trace.indexOf Ev.syncClock <
       rp_io_read_trace.indexOf Ev.restartTimer) ∧
    (Ev.syncClock ∈ rp_io_write_trace ∧
     Ev.restartTimer ∈ rp_io_write_trace ∧
     rp_io_write_trace.indexOf Ev.waitResp <
       rp_io_write_trace.indexOf Ev.syncClock ∧
     rp_io_write_trace.indexOf Ev.syncClock <
       rp_io_write_trace.indexOf Ev.restartTimer) ∧
    rp_io_read id size clk rsp =
      some (rp_read_value_loop size rsp.data, clk, rsp.timestamp) ∧
    rp_io_write_resp id clk rsp = some (clk, rsp.timestamp) := by
  have hrt : be32_to_cpu (encoded_hdr_id id) = id :=
    byteswap32_byteswap32 id hid
  refine ⟨by decide, by decide, ?_, ?_⟩
  · simp [rp_io_read, hrt, hmatch]
  · simp [rp_io_write_resp, hrt, hmatch]

/-- Witness for C6 at concrete inputs: a matching response with
timestamp 500 against a request sampled at clock 100 hands exactly
(100, 500) to `rp_sync_vmclock` on both paths. -/
theorem C6_sync_point_witness :
    rp_io_read 1 4 100 ⟨1, 500, fun _ => 0⟩ =
      some (rp_read_value_loop 4 (RspPkt.mk 1 500 fun _ => 0).data,
            100, 500) ∧
    rp_io_write_resp 1 100 ⟨1, 500, fun _ => 0⟩ = some (100, 500) :=
  ⟨(C6_sync_point 1 4 100 ⟨1, 500, fun _ => 0⟩ (by decide) rfl).2.2.1,
   (C6_sync_point 1 4 100 ⟨1, 500, fun _ => 0⟩ (by decide) rfl).2.2.2⟩

/-- C7: sending an outbound interrupt is fire-and-forget: the handler
encodes exactly one interrupt packet and transmits it with a freshly
allocated id (`current_id++`, distinct on the next call), and its
trace contains no mutex acquisition, no blocking wait and no response
consumption. -/
theorem C7_interrupt_fire_and_forget (c : Nat) :
    rp_gpio_handler_trace.count Ev.encodeInterrupt = 1 ∧
    rp_gpio_handler_trace.count Ev.send = 1 ∧
    Ev.mutexLock ∉ rp_gpio_handler_trace ∧
    Ev.mutexUnlock ∉ rp_gpio_handler_trace ∧
    Ev.waitResp ∉ rp_gpio_handler_trace ∧
    Ev.extractData ∉ rp_gpio_handler_trace ∧
    Ev.invalidate ∉ rp_gpio_handler_trace ∧
    (rp_gpio_handler c).1 = c ∧
    (rp_gpio_handler c).2 = c + 1 ∧
    (rp_gpio_handler (rp_gpio_handler c).2).1 ≠ (rp_gpio_handler c).1 := by
  refine ⟨by decide, by decide, by decide, by decide, by decide, by decide,
    by decide, rfl, rfl, ?_⟩
  simp [rp_gpio_handler]

/-- C8: a served read (`DMA_DIRECTION_TO_DEVICE`) responds with
exactly `len` trailing bytes — the bytes fetched from memory — for a
total of sizeof(struct rp_pkt_busaccess) + len bytes, while a served
write (`DMA_DIRECTION_FROM_DEVICE`) responds with no trailing bytes,
sizeof(struct rp_pkt_busaccess) bytes in total. -/
theorem C8_response_trailing (mem : Nat → Nat) (pkt : SlavePkt)
    (hw : pkt.width = 0) (hs : pkt.stream_width = pkt.len)
    (hf : pkt.flags &&& RP_PKT_FLAGS_response = 0) :
    rp_cmd_rw mem pkt DMADirection.toDevice =
      some (⟨⟨pkt.id, pkt.dev, pkt.timestamp + 0, pkt.addr, pkt.attributes,
              pkt.len, pkt.width, pkt.stream_width⟩,
             rp_pkt_busaccess_size + pkt.len,
             (List.range pkt.len).map fun i => mem (pkt.addr + i)⟩,
            mem) ∧
    rp_cmd_rw mem pkt DMADirection.fromDevice =
      some (⟨⟨pkt.id, pkt.dev, pkt.timestamp + 0, pkt.addr, pkt.attributes,
              pkt.len, pkt.width, pkt.stream_width⟩,
             rp_pkt_busaccess_size, []⟩,
            fun a => if pkt.addr ≤ a ∧ a < pkt.addr + pkt.len
                     then pkt.writeData (a - pkt.addr) else mem a) := by
  constructor
  · simp [rp_cmd_rw, rp_encode_read_resp, hw, hs, hf]
  · simp [rp_cmd_rw, rp_encode_write_resp, hw, hs, hf]

/-- Witness for C8: a 2-byte read at address 64 of the memory
`a % 256` responds with 58 = 56 + 2 total bytes and trailing data
[64, 65]; the corresponding write responds with 56 bytes and no
trailing data. -/
theorem C8_response_trailing_witness :
    ((rp_cmd_rw (fun a => a % 256)
        ⟨5, 2, 0, 100, 0, 64, 2, 0, 2, fun _ => 9⟩
        DMADirection.toDevice).map fun r => (r.1.totalBytes, r.1.trailing))
      = some (58, [64, 65]) ∧
    ((rp_cmd_rw (fun a => a % 256)
        ⟨5, 2, 0, 100, 0, 64, 2, 0, 2, fun _ => 9⟩
        DMADirection.fromDevice).map fun r => (r.1.totalBytes, r.1.trailing))
      = some (56, []) := by
  have h := C8_response_trailing (fun a => a % 256)
    ⟨5, 2, 0, 100, 0, 64, 2, 0, 2, fun _ => 9⟩ rfl rfl (by decide)
  exact ⟨by rw [h.1]; rfl, by rw [h.2]; rfl⟩

/-- C9: `rp_cmd_rw` serves a packet exactly when it is an incremental,
non-response access: the request survives the asserts iff `width = 0`,
`stream_width = len` and the response flag is clear; any streaming
access or response-flagged packet aborts fatally instead of being
served. -/
theorem C9_slave_precondition (mem : Nat → Nat) (pkt : SlavePkt)
    (dir : DMADirection) :
    (rp_cmd_rw mem pkt dir).isSome ↔
      (pkt.width = 0 ∧ pkt.stream_width = pkt.len ∧
       pkt.flags &&& RP_PKT_FLAGS_response = 0) := by
  by_cases h : pkt.width = 0 ∧ pkt.stream_width = pkt.len ∧
      pkt.flags &&& RP_PKT_FLAGS_response = 0
  · cases dir <;>
      simp [rp_cmd_rw, h, rp_encode_read_resp, rp_encode_write_resp]
  · simp [rp_cmd_rw, h]

/-- C10: the realized GPIO device has exactly `num_gpios` output
lines; dispatching an inbound interrupt packet indexes `gpio_out`
directly with the packet's `line` field — well-defined exactly when
`line < num_gpios` — and under that precondition it sets line `line`
to `val` and changes no other line, no array length and no other
field. -/
theorem C10_gpio_dispatch (n line val : Nat) (s : GPIOState)
    (hlen : s.gpio_out.length = s.num_gpios) (hline : line < s.num_gpios) :
    (rp_gpio_realize n).gpio_out.length = n ∧
    (rp_gpio_realize n).num_gpios = n ∧
    (∀ l v, (rp_gpio_interrupt (rp_gpio_realize n) l v).isSome ↔ l < n) ∧
    rp_gpio_interrupt s line val =
      some ⟨s.num_gpios, s.gpio_out.set line val⟩ ∧
    (s.gpio_out.set line val)[line]? = some val ∧
    (∀ j, j ≠ line → (s.gpio_out.set line val)[j]? = s.gpio_out[j]?) ∧
    (s.gpio_out.set line val).length = s.gpio_out.length := by
  have hl : line < s.gpio_out.length := by rw [hlen]; exact hline
  refine ⟨by simp [rp_gpio_realize], rfl, ?_, ?_, ?_, ?_, ?_⟩
  · intro l v
    simp [rp_gpio_interrupt, rp_gpio_realize]
  · simp [rp_gpio_interrupt, hl]
  · exact List.getElem?_set_self hl
  · intro j hj
    exact List.getElem?_set_ne (Ne.symm hj)
  · exact List.length_set s.gpio_out line val

/-- Witness for C10 at a concrete state: the device realized with 4
lines accepts line 2, sets it to 1, and the array still reads 1 at
index 2. -/
theorem C10_gpio_dispatch_witness :
    rp_gpio_interrupt (rp_gpio_realize 4) 2 1 =
      some ⟨(rp_gpio_realize 4).num_gpios,
            (rp_gpio_realize 4).gpio_out.set 2 1⟩ ∧
    ((rp_gpio_realize 4).gpio_out.set 2 1)[2]? = some 1 :=
  have h := C10_gpio_dispatch 4 2 1 (rp_gpio_realize 4) (by decide) (by decide)
  ⟨h.2.2.2.1, h.2.2.2.2.1⟩

end RemotePort
